import Mathlib

/-!
Verification of the combo_app workshop script (src/combo_app.py): a shallow
embedding of the Weaviate search tool adapter, the agent/task/crew
construction, and the Streamlit submit/run block, with theorems settling the
specification's claims about them.
-/

namespace ComboApp

/-- An object returned by the vector-search backend: a bag of string
properties (mirroring obj.properties, a dict, in combo_app.py line 61). -/
structure Obj where
  properties : List (String × String)
deriving DecidableEq

/-- The request issued by the adapter: collection name (line 54), free-text
query and result limit (line 55). -/
structure Query where
  collection : String
  query : String
  limit : Nat
deriving DecidableEq

/-- The query constructed by CustomWeaviateTool._run, lines 54-55:
collections.get(name="Book") and near_text(query=topic, limit=3). -/
def weaviateQuery (topic : String) : Query :=
  { collection := "Book", query := topic, limit := 3 }

/-- Python str(KeyError(k)) renders as the repr of the key, i.e. the key in
single quotes. -/
def keyError (k : String) : String := "\x27" ++ k ++ "\x27"

/-- One element of the generator on line 61: f"📘 {obj.properties[t]}" for
t = "title"; a missing key raises KeyError, modelled as Except.error. -/
def Obj.titleLine (o : Obj) : Except String String :=
  match o.properties.lookup "title" with
  | some t => Except.ok ("📘 " ++ t)
  | none => Except.error (keyError "title")

/-- The generator of formatted lines on line 61, in backend order; the first
missing title aborts with its KeyError message. -/
def titleLines : List Obj → Except String (List String)
  | [] => Except.ok []
  | o :: rest => (Obj.titleLine o).bind fun line =>
      (titleLines rest).map fun lines => line :: lines

/-- The body of the try-block of CustomWeaviateTool._run, lines 45-61.
The external world enters through two oracles: `connect` models
weaviate.connect_to_weaviate_cloud (lines 47-51; Except.error is a raised
connection exception) and `near_text` models collection.query.near_text
(line 55; Except.error is a raised query exception, Except.ok the ordered
results.objects list). -/
def runBody (connect : Except String Unit)
    (near_text : Query → Except String (List Obj)) (topic : String) :
    Except String String :=
  connect.bind fun _ =>
    (near_text (weaviateQuery topic)).bind fun results =>
      if results.isEmpty then Except.ok "No books found in Weaviate."
      else (titleLines results).map (String.intercalate "\n")

/-- CustomWeaviateTool._run, lines 41-64: any exception escaping the
try-block is caught and rendered as the error-marker string (lines 63-64). -/
def CustomWeaviateTool.run (connect : Except String Unit)
    (near_text : Query → Except String (List Obj)) (topic : String) : String :=
  match runBody connect near_text topic with
  | Except.ok s => s
  | Except.error e => "❌ Error querying Weaviate: " ++ e

/-- Claim C1: every exception raised while connecting to or querying the
backend makes `run` return the error-marker string followed by the
exception's message; `run` is total, so nothing propagates. -/
theorem search_exception_returns_error_string
    (connect : Except String Unit)
    (near_text : Query → Except String (List Obj)) (topic m : String)
    (h : connect = Except.error m ∨
      (connect = Except.ok () ∧
        near_text (weaviateQuery topic) = Except.error m)) :
    CustomWeaviateTool.run connect near_text topic
      = "❌ Error querying Weaviate: " ++ m := by
  rcases h with h | ⟨hc, hq⟩
  · simp [CustomWeaviateTool.run, runBody, h, Except.bind]
  · simp [CustomWeaviateTool.run, runBody, hc, hq, Except.bind]

/-- Concrete instance discharging the hypothesis of
`search_exception_returns_error_string`. -/
theorem search_exception_returns_error_string_witness :
    ((Except.error "conn refused" : Except String Unit)
        = Except.error "conn refused" ∨
      ((Except.error "conn refused" : Except String Unit) = Except.ok () ∧
        (fun _ : Query => (Except.ok [] : Except String (List Obj))) (weaviateQuery "ai")
          = Except.error "conn refused")) ∧
    CustomWeaviateTool.run (Except.error "conn refused")
        (fun _ : Query => (Except.ok [] : Except String (List Obj))) "ai"
      = "❌ Error querying Weaviate: " ++ "conn refused" :=
  ⟨Or.inl rfl,
    search_exception_returns_error_string _ _ "ai" "conn refused" (Or.inl rfl)⟩

/-- Claim C2: an empty result set yields exactly the fixed no-results string,
which is not the empty string, and nothing is raised. -/
theorem empty_results_fixed_message
    (near_text : Query → Except String (List Obj)) (topic : String)
    (hq : near_text (weaviateQuery topic) = Except.ok []) :
    CustomWeaviateTool.run (Except.ok ()) near_text topic
        = "No books found in Weaviate." ∧
    CustomWeaviateTool.run (Except.ok ()) near_text topic ≠ "" := by
  have h1 : CustomWeaviateTool.run (Except.ok ()) near_text topic
      = "No books found in Weaviate." := by
    simp [CustomWeaviateTool.run, runBody, hq, Except.bind]
  exact ⟨h1, by rw [h1]; decide⟩

/-- Concrete instance discharging the hypothesis of
`empty_results_fixed_message`. -/
theorem empty_results_fixed_message_witness :
    ((fun _ : Query => (Except.ok [] : Except String (List Obj))) (weaviateQuery "ai")
        = Except.ok ([] : List Obj)) ∧
    (CustomWeaviateTool.run (Except.ok ())
          (fun _ : Query => (Except.ok [] : Except String (List Obj))) "ai"
        = "No books found in Weaviate." ∧
      CustomWeaviateTool.run (Except.ok ())
          (fun _ : Query => (Except.ok [] : Except String (List Obj))) "ai" ≠ "") :=
  ⟨rfl, empty_results_fixed_message _ "ai" rfl⟩

/-- If every object carries a title (in order, `titles`), the generator
succeeds with the decorated lines in the same order. -/
lemma titleLines_ok (results : List Obj) (titles : List String)
    (ht : results.map (fun o => o.properties.lookup "title")
        = titles.map some) :
    titleLines results = Except.ok (titles.map (fun t => "📘 " ++ t)) := by
  induction results generalizing titles with
  | nil =>
    cases titles with
    | nil => rfl
    | cons t ts => simp at ht
  | cons o rest ih =>
    cases titles with
    | nil => simp at ht
    | cons t ts =>
      simp only [List.map_cons, List.cons.injEq] at ht
      obtain ⟨h1, h2⟩ := ht
      simp [titleLines, Obj.titleLine, h1, ih ts h2, Except.bind, Except.map]

/-- If some object lacks a title, the generator aborts with the KeyError
message for "title". -/
lemma titleLines_missing (results : List Obj)
    (h : ∃ o ∈ results, o.properties.lookup "title" = none) :
    titleLines results = Except.error (keyError "title") := by
  induction results with
  | nil => simp at h
  | cons o rest ih =>
    rcases h with ⟨o0, ho0, hnone⟩
    rcases List.mem_cons.mp ho0 with rfl | hmem
    · simp [titleLines, Obj.titleLine, hnone, Except.bind]
    · cases hlook : o.properties.lookup "title" with
      | none => simp [titleLines, Obj.titleLine, hlook, Except.bind]
      | some t =>
        simp [titleLines, Obj.titleLine, hlook, Except.bind,
          ih ⟨o0, hmem, hnone⟩, Except.map]

/-- A successful query with nonempty, fully-titled results renders the
newline-joined decorated titles in backend order. -/
lemma run_formats_titles (near_text : Query → Except String (List Obj))
    (topic : String) (results : List Obj) (titles : List String)
    (hq : near_text (weaviateQuery topic) = Except.ok results)
    (hne : results ≠ [])
    (ht : results.map (fun o => o.properties.lookup "title")
        = titles.map some) :
    CustomWeaviateTool.run (Except.ok ()) near_text topic
      = String.intercalate "\n" (titles.map (fun t => "📘 " ++ t)) := by
  have hno : results.isEmpty = false := by
    cases results with
    | nil => exact absurd rfl hne
    | cons a l => rfl
  simp [CustomWeaviateTool.run, runBody, hq, hno, Except.bind,
    titleLines_ok results titles ht, Except.map]

/-- Claim C3: a backend response of 1 to 3 titled objects yields the
newline-join of exactly that many decorated lines, in backend order; in
particular titles "Book A", "Book B" yield "📘 Book A\n📘 Book B". -/
theorem small_result_sets_formatted
    (near_text : Query → Except String (List Obj))
    (topic : String) (results : List Obj) (titles : List String)
    (hq : near_text (weaviateQuery topic) = Except.ok results)
    (hlo : 1 ≤ results.length) (hhi : results.length ≤ 3)
    (ht : results.map (fun o => o.properties.lookup "title")
        = titles.map some) :
    CustomWeaviateTool.run (Except.ok ()) near_text topic
        = String.intercalate "\n" (titles.map (fun t => "📘 " ++ t)) ∧
    (titles.map (fun t => "📘 " ++ t)).length = results.length ∧
    CustomWeaviateTool.run (Except.ok ())
        (fun _ : Query => (Except.ok [Obj.mk [("title", "Book A")],
          Obj.mk [("title", "Book B")]] : Except String (List Obj))) topic
        = "📘 Book A\n📘 Book B" := by
  have hne : results ≠ [] := by
    intro hnil
    rw [hnil] at hlo
    simp at hlo
  refine ⟨run_formats_titles near_text topic results titles hq hne ht, ?_, ?_⟩
  · have := congrArg List.length ht
    simp only [List.length_map] at this
    simp [List.length_map, this]
  · rfl

/-- Concrete instance discharging the hypotheses of
`small_result_sets_formatted`. -/
theorem small_result_sets_formatted_witness :
    ((fun _ : Query => (Except.ok [Obj.mk [("title", "Book A")],
          Obj.mk [("title", "Book B")]] : Except String (List Obj)))
          (weaviateQuery "climate change")
        = Except.ok [Obj.mk [("title", "Book A")],
            Obj.mk [("title", "Book B")]] ∧
      1 ≤ [Obj.mk [("title", "Book A")],
            Obj.mk [("title", "Book B")]].length ∧
      [Obj.mk [("title", "Book A")], Obj.mk [("title", "Book B")]].length ≤ 3 ∧
      [Obj.mk [("title", "Book A")], Obj.mk [("title", "Book B")]].map
          (fun o => o.properties.lookup "title")
        = ["Book A", "Book B"].map some) ∧
    (CustomWeaviateTool.run (Except.ok ())
        (fun _ : Query => (Except.ok [Obj.mk [("title", "Book A")],
          Obj.mk [("title", "Book B")]] : Except String (List Obj)))
        "climate change"
        = String.intercalate "\n"
            (["Book A", "Book B"].map (fun t => "📘 " ++ t)) ∧
      (["Book A", "Book B"].map (fun t => "📘 " ++ t)).length
        = [Obj.mk [("title", "Book A")], Obj.mk [("title", "Book B")]].length ∧
      CustomWeaviateTool.run (Except.ok ())
        (fun _ : Query => (Except.ok [Obj.mk [("title", "Book A")],
          Obj.mk [("title", "Book B")]] : Except String (List Obj)))
        "climate change"
        = "📘 Book A\n📘 Book B") :=
  ⟨⟨rfl, by decide, by decide, by decide⟩,
    small_result_sets_formatted _ "climate change" _ ["Book A", "Book B"]
      rfl (by decide) (by decide) (by decide)⟩

/-- Modelled from the spec: the vector-search service answers a request with
the ordered list of matching objects, cut to the request's result limit
(spec section 6, "Vector-search query contract"). -/
def collectionLimitedBackend (collection : List Obj) :
    Query → Except String (List Obj) :=
  fun q => Except.ok (collection.take q.limit)

/-- Claim C4: the adapter's query targets collection "Book" with limit 3,
and the adapter neither truncates further nor reorders: with more than 3
matches, exactly the first 3, in backend order, are rendered. -/
theorem query_contract_limit_three (topic : String) (collection : List Obj)
    (titles : List String)
    (hlen : 3 < collection.length)
    (ht : (collection.take 3).map (fun o => o.properties.lookup "title")
        = titles.map some) :
    (weaviateQuery topic).collection = "Book" ∧
    (weaviateQuery topic).limit = 3 ∧
    CustomWeaviateTool.run (Except.ok ())
        (collectionLimitedBackend collection) topic
      = String.intercalate "\n" (titles.map (fun t => "📘 " ++ t)) ∧
    titles.length = 3 := by
  have hq : collectionLimitedBackend collection (weaviateQuery topic)
      = Except.ok (collection.take 3) := rfl
  have htk : (collection.take 3).length = 3 := by
    rw [List.length_take]
    omega
  have hne : collection.take 3 ≠ [] := by
    intro hnil
    rw [hnil] at htk
    simp at htk
  have hlen2 : titles.length = 3 := by
    have := congrArg List.length ht
    simp only [List.length_map] at this
    omega
  exact ⟨rfl, rfl,
    run_formats_titles _ topic (collection.take 3) titles hq hne ht, hlen2⟩

/-- Concrete instance discharging the hypotheses of
`query_contract_limit_three`. -/
theorem query_contract_limit_three_witness :
    (3 < [Obj.mk [("title", "B1")], Obj.mk [("title", "B2")],
          Obj.mk [("title", "B3")], Obj.mk [("title", "B4")]].length ∧
      ([Obj.mk [("title", "B1")], Obj.mk [("title", "B2")],
          Obj.mk [("title", "B3")], Obj.mk [("title", "B4")]].take 3).map
          (fun o => o.properties.lookup "title")
        = ["B1", "B2", "B3"].map some) ∧
    ((weaviateQuery "ai").collection = "Book" ∧
      (weaviateQuery "ai").limit = 3 ∧
      CustomWeaviateTool.run (Except.ok ())
          (collectionLimitedBackend [Obj.mk [("title", "B1")],
            Obj.mk [("title", "B2")], Obj.mk [("title", "B3")],
            Obj.mk [("title", "B4")]]) "ai"
        = String.intercalate "\n"
            (["B1", "B2", "B3"].map (fun t => "📘 " ++ t)) ∧
      ["B1", "B2", "B3"].length = 3) :=
  ⟨⟨by decide, by decide⟩,
    query_contract_limit_three "ai" _ ["B1", "B2", "B3"]
      (by decide) (by decide)⟩

/-- Claim C10: a nonempty result set in which some object lacks a "title"
property makes the formatting raise a KeyError inside the try-block, which
the handler turns into the error-marker string — the call still returns. -/
theorem missing_title_yields_error_string
    (near_text : Query → Except String (List Obj))
    (topic : String) (results : List Obj)
    (hq : near_text (weaviateQuery topic) = Except.ok results)
    (hne : results ≠ [])
    (hmiss : ∃ o ∈ results, o.properties.lookup "title" = none) :
    CustomWeaviateTool.run (Except.ok ()) near_text topic
      = "❌ Error querying Weaviate: \x27title\x27" := by
  have hno : results.isEmpty = false := by
    cases results with
    | nil => exact absurd rfl hne
    | cons a l => rfl
  simp [CustomWeaviateTool.run, runBody, hq, hno, Except.bind,
    titleLines_missing results hmiss, Except.map, keyError]

/-- Concrete instance discharging the hypotheses of
`missing_title_yields_error_string`. -/
theorem missing_title_yields_error_string_witness :
    ((fun _ : Query => (Except.ok [Obj.mk [("author", "X")]]
          : Except String (List Obj))) (weaviateQuery "ai")
        = Except.ok [Obj.mk [("author", "X")]] ∧
      [Obj.mk [("author", "X")]] ≠ ([] : List Obj) ∧
      (∃ o ∈ [Obj.mk [("author", "X")]],
        o.properties.lookup "title" = none)) ∧
    CustomWeaviateTool.run (Except.ok ())
        (fun _ : Query => (Except.ok [Obj.mk [("author", "X")]]
          : Except String (List Obj))) "ai"
      = "❌ Error querying Weaviate: \x27title\x27" :=
  ⟨⟨rfl, by decide, by decide⟩,
    missing_title_yields_error_string _ "ai" _ rfl (by decide) (by decide)⟩

/-- A crewai tool reference, as far as this script sets it: name and
description class attributes of CustomWeaviateTool (lines 36-37). -/
structure Tool where
  name : String
  description : String
deriving DecidableEq

/-- A crewai Agent as constructed here (lines 80-97): role, goal, backstory,
tool list (defaulting to empty when the keyword is not passed), verbose flag
and model identifier. -/
structure Agent where
  role : String
  goal : String
  backstory : String
  tools : List Tool
  verbose : Bool
  model : String
deriving DecidableEq

/-- A crewai Task as constructed here (lines 101-122): name, description,
expected output contract and assigned agent. The constructor also accepts an
optional context list of upstream task names whose outputs feed the task;
this script never passes it, so it defaults to empty. -/
structure Task where
  name : String
  description : String
  expected_output : String
  agent : Agent
  context : List String
deriving DecidableEq

/-- The execution process handed to the Crew constructor (line 131). -/
inductive Process where
  | sequential
deriving DecidableEq

/-- A crewai Crew as constructed here (lines 128-133). -/
structure Crew where
  agents : List Agent
  tasks : List Task
  process : Process
  verbose : Bool
deriving DecidableEq

/-- The tool instantiated in WorkshopAgentsAndTasks.__init__ (line 74), with
the class attributes of CustomWeaviateTool (lines 36-37). -/
def customWeaviateTool : Tool :=
  { name := "Weaviate Book Search Tool",
    description :=
      "Searches Weaviate for relevant books related to a given topic." }

/-- create_data_analyst_agent (lines 79-86), with self.user_query passed
explicitly. -/
def create_data_analyst_agent (user_query : String) : Agent :=
  { role := "Data Analyst",
    goal := "Generate insights and trends about \x27" ++ user_query
      ++ "\x27.",
    backstory := "An experienced data professional skilled in extracting "
      ++ "meaning from complex datasets and market data.",
    tools := [],
    verbose := true,
    model := "o3-mini" }

/-- create_resource_recommender_agent (lines 89-97), with self.weaviate_tool
passed explicitly. -/
def create_resource_recommender_agent (weaviate_tool : Tool) : Agent :=
  { role := "Resource Recommender",
    goal := "Provide relevant books and resources based on semantic search.",
    backstory := "An expert in research and knowledge systems, skilled at "
      ++ "surfacing valuable content using tools like Weaviate.",
    tools := [weaviate_tool],
    verbose := true,
    model := "o3-mini" }

/-- The state built by WorkshopAgentsAndTasks.__init__ (lines 72-76). -/
structure WorkshopAgentsAndTasks where
  user_query : String
  weaviate_tool : Tool
  data_analyst_agent : Agent
  resource_recommender_agent : Agent
deriving DecidableEq

/-- WorkshopAgentsAndTasks.__init__ (lines 72-76). -/
def WorkshopAgentsAndTasks.init (user_query : String) :
    WorkshopAgentsAndTasks :=
  { user_query := user_query,
    weaviate_tool := customWeaviateTool,
    data_analyst_agent := create_data_analyst_agent user_query,
    resource_recommender_agent :=
      create_resource_recommender_agent customWeaviateTool }

/-- create_data_analysis_task (lines 100-106). -/
def WorkshopAgentsAndTasks.create_data_analysis_task
    (w : WorkshopAgentsAndTasks) : Task :=
  { name := "Trend Analysis",
    description := "Analyze key patterns and trends related to \x27"
      ++ w.user_query
      ++ "\x27 using your knowledge and reasoning abilities.",
    expected_output := "A structured summary with 2-3 key insights or trends.",
    agent := w.data_analyst_agent,
    context := [] }

/-- create_resource_recommendation_task (lines 109-122). -/
def WorkshopAgentsAndTasks.create_resource_recommendation_task
    (w : WorkshopAgentsAndTasks) : Task :=
  { name := "Book Finder Task",
    description := "Use only the Weaviate tool to find high-quality books "
      ++ "or articles about \x27" ++ w.user_query ++ "\x27. "
      ++ "You must base your answer strictly on the output returned by the "
      ++ "tool and do not use external knowledge or suggestions. "
      ++ "If the tool does not return any relevant results, say so.",
    expected_output := "A list of up to 3 recommended books or resources "
      ++ "returned from Weaviate, each with a short explanation. "
      ++ "Do not fabricate or include items not returned by the tool.",
    agent := w.resource_recommender_agent,
    context := [] }

/-- create_workshop_crew (lines 127-133). -/
def WorkshopAgentsAndTasks.create_workshop_crew
    (w : WorkshopAgentsAndTasks) : Crew :=
  { agents := [w.data_analyst_agent, w.resource_recommender_agent],
    tasks := [w.create_data_analysis_task,
      w.create_resource_recommendation_task],
    process := Process.sequential,
    verbose := true }

/-- Claim C5: construction for any non-empty query yields exactly 2 agents
and 2 tasks, tasks assigned to the matching agents, handed to the executor
in order (analysis first, recommendation second) under a sequential
process. -/
theorem crew_two_agents_two_tasks (q : String) (h : q ≠ "") :
    ((WorkshopAgentsAndTasks.init q).create_workshop_crew).agents.length
        = 2 ∧
    ((WorkshopAgentsAndTasks.init q).create_workshop_crew).tasks.length
        = 2 ∧
    ((WorkshopAgentsAndTasks.init q).create_workshop_crew).tasks
        = [(WorkshopAgentsAndTasks.init q).create_data_analysis_task,
          (WorkshopAgentsAndTasks.init q).create_resource_recommendation_task]
        ∧
    ((WorkshopAgentsAndTasks.init q).create_data_analysis_task).agent
        = (WorkshopAgentsAndTasks.init q).data_analyst_agent ∧
    ((WorkshopAgentsAndTasks.init q).create_resource_recommendation_task).agent
        = (WorkshopAgentsAndTasks.init q).resource_recommender_agent ∧
    ((WorkshopAgentsAndTasks.init q).create_workshop_crew).process
        = Process.sequential :=
  ⟨rfl, rfl, rfl, rfl, rfl, rfl⟩

/-- Concrete instance discharging the hypothesis of
`crew_two_agents_two_tasks`. -/
theorem crew_two_agents_two_tasks_witness :
    "climate change" ≠ "" ∧
    (((WorkshopAgentsAndTasks.init "climate change").create_workshop_crew).agents.length
        = 2 ∧
    ((WorkshopAgentsAndTasks.init "climate change").create_workshop_crew).tasks.length
        = 2 ∧
    ((WorkshopAgentsAndTasks.init "climate change").create_workshop_crew).tasks
        = [(WorkshopAgentsAndTasks.init "climate change").create_data_analysis_task,
          (WorkshopAgentsAndTasks.init "climate change").create_resource_recommendation_task]
        ∧
    ((WorkshopAgentsAndTasks.init "climate change").create_data_analysis_task).agent
        = (WorkshopAgentsAndTasks.init "climate change").data_analyst_agent ∧
    ((WorkshopAgentsAndTasks.init "climate change").create_resource_recommendation_task).agent
        = (WorkshopAgentsAndTasks.init "climate change").resource_recommender_agent
        ∧
    ((WorkshopAgentsAndTasks.init "climate change").create_workshop_crew).process
        = Process.sequential) :=
  ⟨by decide, crew_two_agents_two_tasks "climate change" (by decide)⟩

/-- Modelled from the spec: the external sequential executor (Crew.kickoff)
runs the task list in order, one task at a time; a task's reasoning sees the
outputs of exactly those prior tasks named in its context field (spec
section 4.3 and 9: tasks run in a fixed order and data passes between tasks
only through declared context, which this script never declares). `exec`
abstracts one task execution from the outputs visible to it. -/
def runTaskList (exec : Task → List String → String) :
    List Task → List (String × String) → List String
  | [], _ => []
  | t :: rest, prior =>
      let visible := (prior.filter
        (fun p => t.context.contains p.1)).map (fun p => p.2)
      let out := exec t visible
      out :: runTaskList exec rest (prior ++ [(t.name, out)])

/-- crew.kickoff() (line 155), over the abstract executor. -/
def Crew.kickoff (exec : Task → List String → String) (c : Crew) :
    List String :=
  runTaskList exec c.tasks []

/-- Claim C9: kickoff runs the analysis task first and the recommendation
task second, and each executes with no visible upstream output — in
particular the recommender's output is a function of its own task spec
alone, independent of the analyst's output — because neither task declares
any context. -/
theorem tasks_sequential_and_independent (q : String)
    (exec : Task → List String → String) :
    Crew.kickoff exec ((WorkshopAgentsAndTasks.init q).create_workshop_crew)
      = [exec ((WorkshopAgentsAndTasks.init q).create_data_analysis_task) [],
        exec ((WorkshopAgentsAndTasks.init q).create_resource_recommendation_task)
          []] ∧
    ((WorkshopAgentsAndTasks.init q).create_data_analysis_task).context
        = [] ∧
    ((WorkshopAgentsAndTasks.init q).create_resource_recommendation_task).context
        = [] :=
  ⟨rfl, rfl, rfl⟩

/-- One widget rendered by the run block: st.info, st.success, st.markdown
or st.error (lines 149-167). -/
inductive RenderItem where
  | info (text : String)
  | success (text : String)
  | markdown (text : String)
  | error (text : String)
deriving DecidableEq

def RenderItem.isError : RenderItem → Bool
  | RenderItem.error _ => true
  | _ => false

def RenderItem.isMarkdown : RenderItem → Bool
  | RenderItem.markdown _ => true
  | _ => false

/-- Outcome of crew.kickoff() as the run block observes it: either a normal
return (final result plus tasks[0].output, lines 155-164) or a raised
exception message (line 166). -/
inductive KickoffResult where
  | ok (result : String) (task0_output : String)
  | exn (message : String)
deriving DecidableEq

/-- What one pass through the run block leaves behind: the crew built (if
any), whether kickoff was started, and the widgets rendered in order. -/
structure UIOutcome where
  crewConstructed : Option Crew
  kickoffInvoked : Bool
  rendered : List RenderItem
deriving DecidableEq

/-- The submit guard on line 148: the button click and Python truthiness of
user_query (empty string is falsy). -/
def submitGuard (clicked : Bool) (user_query : String) : Bool :=
  clicked && !(user_query == "")

/-- The run block, lines 148-167: when the guard holds it shows the waiting
banner, builds the workshop objects and crew, and invokes kickoff, whose
outcome `kick` decides between the two success sections and the single
error banner. -/
def uiStep (clicked : Bool) (user_query : String) (kick : KickoffResult) :
    UIOutcome :=
  if submitGuard clicked user_query then
    let w := WorkshopAgentsAndTasks.init user_query
    match kick with
    | KickoffResult.ok result task0_output =>
        { crewConstructed := some w.create_workshop_crew,
          kickoffInvoked := true,
          rendered := [RenderItem.info "Running CrewAI Workflow... Please wait ⏳",
            RenderItem.success "✅ Workflow completed successfully!",
            RenderItem.markdown "### 📊 Data Analyst Output",
            RenderItem.markdown task0_output,
            RenderItem.markdown "### 📚 Resource Recommender Output",
            RenderItem.markdown result] }
    | KickoffResult.exn message =>
        { crewConstructed := some w.create_workshop_crew,
          kickoffInvoked := true,
          rendered := [RenderItem.info "Running CrewAI Workflow... Please wait ⏳",
            RenderItem.error ("❌ Something went wrong: " ++ message)] }
  else
    { crewConstructed := none, kickoffInvoked := false, rendered := [] }

/-- Claim C6: with an empty query, even a clicked submit builds no crew,
starts no workflow and renders nothing. -/
theorem empty_query_no_workflow (clicked : Bool) (kick : KickoffResult) :
    (uiStep clicked "" kick).crewConstructed = none ∧
    (uiStep clicked "" kick).kickoffInvoked = false ∧
    (uiStep clicked "" kick).rendered = [] := by
  cases clicked <;> cases kick <;> exact ⟨rfl, rfl, rfl⟩

/-- Claim C7: a workflow error after a non-empty submission renders exactly
the waiting banner and one error banner carrying the message verbatim; no
markdown section — in particular no analyst output — is ever shown. -/
theorem workflow_error_single_banner (q m : String) (h : q ≠ "") :
    (uiStep true q (KickoffResult.exn m)).rendered
        = [RenderItem.info "Running CrewAI Workflow... Please wait ⏳",
          RenderItem.error ("❌ Something went wrong: " ++ m)] ∧
    ((uiStep true q (KickoffResult.exn m)).rendered.countP
        RenderItem.isError) = 1 ∧
    ((uiStep true q (KickoffResult.exn m)).rendered.countP
        RenderItem.isMarkdown) = 0 := by
  have hb : (q == "") = false := by
    cases hq : q == "" with
    | false => rfl
    | true => exact absurd (eq_of_beq hq) h
  have h1 : (uiStep true q (KickoffResult.exn m)).rendered
      = [RenderItem.info "Running CrewAI Workflow... Please wait ⏳",
        RenderItem.error ("❌ Something went wrong: " ++ m)] := by
    simp [uiStep, submitGuard, hb]
  refine ⟨h1, ?_, ?_⟩ <;> rw [h1] <;> rfl

/-- Concrete instance discharging the hypothesis of
`workflow_error_single_banner`. -/
theorem workflow_error_single_banner_witness :
    "quantum computing" ≠ "" ∧
    ((uiStep true "quantum computing" (KickoffResult.exn "rate limited")).rendered
        = [RenderItem.info "Running CrewAI Workflow... Please wait ⏳",
          RenderItem.error ("❌ Something went wrong: " ++ "rate limited")] ∧
      ((uiStep true "quantum computing"
          (KickoffResult.exn "rate limited")).rendered.countP
        RenderItem.isError) = 1 ∧
      ((uiStep true "quantum computing"
          (KickoffResult.exn "rate limited")).rendered.countP
        RenderItem.isMarkdown) = 0) :=
  ⟨by decide,
    workflow_error_single_banner "quantum computing" "rate limited"
      (by decide)⟩

/-- Environment variable names read via os.getenv while the module
initializes (line 21). load_dotenv (line 18) populates the environment, and
the OpenAI() client built on line 22 consumes its own key internally; the
only explicit startup read is the Opik key. -/
def startupEnvReads : List String := ["OPIK_API_KEY"]

/-- Environment variable names read via os.getenv inside
CustomWeaviateTool._run, i.e. again on every tool invocation during a run
(lines 48-50). -/
def searchToolEnvReads : List String :=
  ["WEAVIATE_CLUSTER_URL", "WEAVIATE_API_KEY", "OPENAI_API_KEY"]

/-- Claim C8 counterexample: the vector-search cluster URL is not among the
startup reads — it is read inside the search adapter during operation. -/
theorem weaviate_env_not_read_at_startup :
    "WEAVIATE_CLUSTER_URL" ∉ startupEnvReads ∧
    "WEAVIATE_CLUSTER_URL" ∈ searchToolEnvReads := by
  decide

/-- Claim C8 as amended: the orchestration/tracing key is the startup read;
the vector-search cluster URL and API key, and the language-model key header,
are read inside the search adapter on each tool invocation, not at
startup. -/
theorem env_reads_startup_vs_invocation :
    "OPIK_API_KEY" ∈ startupEnvReads ∧
    "WEAVIATE_CLUSTER_URL" ∈ searchToolEnvReads ∧
    "WEAVIATE_API_KEY" ∈ searchToolEnvReads ∧
    "OPENAI_API_KEY" ∈ searchToolEnvReads ∧
    "WEAVIATE_CLUSTER_URL" ∉ startupEnvReads ∧
    "WEAVIATE_API_KEY" ∉ startupEnvReads := by
  decide

end ComboApp
